import Mathlib

/-!
Verification development for the VORACLE scouting-report engine.

The repository ships the Next.js presentation layer under `apps/web`
(TypeScript); the computation core (metrics engine, rule engine, ranking,
report assembler, located in `packages/core`, Python) is referenced by the
README and the specification but its sources are not present.  We therefore
embed:

* the wire contract and the frontend computations directly from the
  TypeScript sources (`types/report.ts`, `components/...`), and
* the missing core pipeline as definitions whose doc comments start with
  `Modelled from the spec:`, faithful to the specification text.

All numerics use `ℚ` (the source JavaScript/Python numbers carry exact
decimal constants such as 0.55/0.45/0.25/0.15 at every compared site).
-/

namespace Voracle

/- ------------------------------------------------------------------ -/
/- Wire contract, from `apps/web/src/types/report.ts`                 -/
/- ------------------------------------------------------------------ -/

/-- Severity levels, from `'HIGH' | 'MED' | 'LOW'` in `types/report.ts`. -/
inductive Severity
  | HIGH
  | MED
  | LOW
  deriving DecidableEq, Repr

/-- Confidence levels, from `'high' | 'medium' | 'low'` in `types/report.ts`. -/
inductive Confidence
  | high
  | medium
  | low
  deriving DecidableEq, Repr

/-- Trend direction, from `'improving' | 'declining'` in `types/report.ts`. -/
inductive Direction
  | improving
  | declining
  deriving DecidableEq, Repr

/-- Map-veto recommendation, from
`'BAN' | 'PICK' | 'NEUTRAL' | 'LOW_SAMPLE'` in `types/report.ts`. -/
inductive VetoRec
  | BAN
  | PICK
  | NEUTRAL
  | LOW_SAMPLE
  deriving DecidableEq, Repr

/-- Side of the round, from `'attack' | 'defense'` in `types/report.ts`. -/
inductive Side
  | attack
  | defense
  deriving DecidableEq, Repr

/-- A JSON-ish cell value; the `Record<string, any>` cells of the wire
contract hold strings, numbers or booleans in every table this report
carries. -/
inductive JVal
  | str (s : String)
  | num (q : ℚ)
  | bool (b : Bool)
  deriving DecidableEq, Repr

/-- A row of a canonical table on the wire: `Record<string, any>`. -/
def Row : Type := List (String × JVal)

instance : DecidableEq Row := by
  unfold Row
  exact inferInstance

/-- `EvidenceRef` from `types/report.ts` lines 7-11. -/
structure EvidenceRef where
  table : String
  filters : List (String × JVal)
  sample_rows : List Row
  deriving DecidableEq

/-- `KeyInsight` from `types/report.ts` lines 14-25. -/
structure KeyInsight where
  title : String
  severity : Severity
  confidence : Confidence
  data_point : String
  interpretation : String
  recommendation : String
  what_not_to_do : Option String
  evidence_refs : List EvidenceRef
  impact_score : ℚ
  category : String
  deriving DecidableEq

/-- `TrendAlert` from `types/report.ts` lines 27-34. -/
structure TrendAlert where
  metric : String
  last_3 : ℚ
  last_10 : ℚ
  change_pct : ℚ
  direction : Direction
  significance : Severity
  deriving DecidableEq, Repr

/-- `TeamSummary` from `types/report.ts` lines 37-42. -/
structure TeamSummary where
  name : String
  matches_analyzed : Nat
  overall_win_rate : ℚ
  date_range : String
  deriving DecidableEq

/-- `AgentStats` from `types/report.ts` lines 45-49. -/
structure AgentStats where
  agent_name : String
  games : Nat
  pick_rate : ℚ
  deriving DecidableEq

/-- `PlayerStats` from `types/report.ts` lines 52-64. -/
structure PlayerStats where
  name : String
  games : Nat
  most_played_agent : String
  agent_pool : List AgentStats
  avg_acs : ℚ
  avg_kills : ℚ
  avg_deaths : ℚ
  avg_assists : ℚ
  kd_ratio : ℚ
  first_blood_rate : ℚ
  first_death_rate : ℚ
  deriving DecidableEq

/-- `MapVeto` from `types/report.ts` lines 67-74. -/
structure MapVeto where
  map_name : String
  recommendation : VetoRec
  win_rate : ℚ
  games : Nat
  wins : Nat
  confidence : String
  deriving DecidableEq, Repr

/-- `MapStats` from `types/report.ts` lines 76-84. -/
structure MapStats where
  map_name : String
  games : Nat
  wins : Nat
  losses : Nat
  win_rate : ℚ
  avg_rounds_won : ℚ
  avg_rounds_lost : ℚ
  deriving DecidableEq, Repr

/-- `SideStats` from `types/report.ts` lines 87-92. -/
structure SideStats where
  side : Side
  rounds_played : Nat
  rounds_won : Nat
  win_rate : ℚ
  deriving DecidableEq

/-- `EconomyStats` from `types/report.ts` lines 95-102. -/
structure EconomyStats where
  pistol_rounds : Nat
  pistol_wins : Nat
  pistol_win_rate : ℚ
  eco_rounds : Nat
  eco_wins : Nat
  eco_conversion_rate : ℚ
  deriving DecidableEq, Repr

/-- `TeamCapabilities` from `types/report.ts` lines 105-112. -/
structure TeamCapabilities where
  pistol : ℚ
  economy : ℚ
  first_bloods : ℚ
  attack : ℚ
  defense : ℚ
  consistency : ℚ
  deriving DecidableEq

/-- `ScoutingReport` from `types/report.ts` lines 115-130: the versioned
wire contract consumed by the presentation layer.  `economy_stats` is
`EconomyStats | null` in the source; `evidence_tables` and `meta` are
generic records there. -/
structure ScoutingReport where
  generated_at : String
  team_summary : TeamSummary
  trend_alerts : List TrendAlert
  map_veto : List MapVeto
  map_performance : List MapStats
  side_performance : List SideStats
  economy_stats : Option EconomyStats
  player_stats : List PlayerStats
  capabilities : TeamCapabilities
  key_insights : List KeyInsight
  how_to_beat : List String
  what_not_to_do : List String
  evidence_tables : List (String × List Row)
  meta : List (String × JVal)

/-- The top-level field names of `ScoutingReport` in `types/report.ts`
lines 115-130, in declaration order. -/
def scoutingReportFields : List String :=
  ["generated_at", "team_summary", "trend_alerts", "map_veto",
   "map_performance", "side_performance", "economy_stats", "player_stats",
   "capabilities", "key_insights", "how_to_beat", "what_not_to_do",
   "evidence_tables", "meta"]

/-- The top-level field list of the output contract as the specification
words it (spec §6, "Output contract"), in the order the spec lists it.
This is the spec-side definition of a refinement claim, to be compared
with `scoutingReportFields` taken from the source. -/
def specOutputContractFields : List String :=
  ["generated_at", "team_summary", "trend_alerts", "map_veto",
   "map_performance", "side_performance", "economy_stats", "player_stats",
   "capabilities", "key_insights", "how_to_beat", "what_not_to_do",
   "evidence_tables", "meta"]

/- ------------------------------------------------------------------ -/
/- Canonical tables (spec §3; produced by the external normalizer)    -/
/- ------------------------------------------------------------------ -/

/-- Round type, from spec §3 `RoundRecord` (pistol/eco/force/full-buy). -/
inductive RoundType
  | pistol
  | eco
  | force
  | fullbuy
  deriving DecidableEq, Repr

/-- Modelled from the spec: §3 `MatchRecord` — match id, date, map played,
win/loss flag, pistol-round winner flag, opponent identity.  The record
itself lives in the missing `packages/core/normalize` layer.  Dates are
encoded as natural numbers (days); higher is later. -/
structure MatchRecord where
  match_id : Nat
  date : Nat
  map_name : String
  won : Bool
  won_pistol : Bool
  opponent : String
  deriving DecidableEq, Repr

/-- Modelled from the spec: §3 `RoundRecord` — match id, round number,
side, round type, winner flag.  Lives in the missing normalize layer. -/
structure RoundRecord where
  match_id : Nat
  round_no : Nat
  side : Side
  round_type : RoundType
  won : Bool
  deriving DecidableEq, Repr

/-- Modelled from the spec: §3 `PlayerMatchStat` — match id, player name,
agent, kills/deaths/assists, combat score, first-kill/first-death counts.
Lives in the missing normalize layer. -/
structure PlayerMatchStat where
  match_id : Nat
  player : String
  agent : String
  kills : Nat
  deaths : Nat
  assists : Nat
  acs : ℚ
  first_kills : Nat
  first_deaths : Nat
  deriving DecidableEq, Repr

/-- The three canonical input tables (spec §2), most-recent match first. -/
structure Tables where
  matches_df : List MatchRecord
  rounds_df : List RoundRecord
  players_df : List PlayerMatchStat
  deriving DecidableEq

/- ------------------------------------------------------------------ -/
/- Shared arithmetic helpers                                          -/
/- ------------------------------------------------------------------ -/

/-- Modelled from the spec: "All rate computations are guarded against
division by zero" (§4.1) — a zero denominator yields 0, never an error. -/
def safeRate (w n : Nat) : ℚ :=
  if n = 0 then 0 else (w : ℚ) / (n : ℚ)

/-- Division on ℚ guarded against a zero denominator (spec §4.1). -/
def safeDivQ (a b : ℚ) : ℚ :=
  if b = 0 then 0 else a / b

/-- Clip to the unit interval (spec §4.3: effect sizes are 0-1). -/
def clamp01 (x : ℚ) : ℚ := min 1 (max 0 x)

/-- Clip to [0,100] (spec §4.1: capabilities are six bounded scores). -/
def clamp100 (x : ℚ) : ℚ := min 100 (max 0 x)

/-- First-occurrence deduplication of a string list (used for agent pools,
player rosters, map names and checklist texts). -/
def uniqueKeys (l : List String) : List String :=
  l.foldl (fun acc x => if x ∈ acc then acc else acc ++ [x]) []

/- ------------------------------------------------------------------ -/
/- Evidence extraction (spec §3 EvidenceRef, §9 evidence sampling)    -/
/- ------------------------------------------------------------------ -/

/-- Does a row satisfy every (column, value) pair of a filter?  Modelled
from the spec: an `EvidenceRef.filters` is "the exact filter applied",
a conjunction of column equalities re-playable against the table. -/
def rowMatches (filters : List (String × JVal)) (r : Row) : Bool :=
  filters.all fun kv => decide (List.lookup kv.1 r = some kv.2)

/-- Re-apply a filter to a table: the rows satisfying every equality. -/
def applyFilters (filters : List (String × JVal)) (t : List Row) : List Row :=
  t.filter (rowMatches filters)

/-- Modelled from the spec: evidence extraction is "a pure query
(predicate + row cap) against immutable tables" (§9), sampling at most 5
matching rows (§3: "a small sample of matching rows (capped, e.g. ≤5)").
The implementation lives in the missing `packages/core/insights` layer. -/
def makeEvidenceRef (tbl : String) (filters : List (String × JVal))
    (t : List Row) : EvidenceRef :=
  ⟨tbl, filters, (applyFilters filters t).take 5⟩

/-- A `MatchRecord` as it appears in the wire-level evidence tables. -/
def rowOfMatch (m : MatchRecord) : Row :=
  [("match_id", JVal.num (m.match_id : ℚ)),
   ("date", JVal.num (m.date : ℚ)),
   ("map", JVal.str m.map_name),
   ("won", JVal.bool m.won),
   ("won_pistol", JVal.bool m.won_pistol),
   ("opponent", JVal.str m.opponent)]

/-- The matches table as wire rows. -/
def matchRows (matchTable : List MatchRecord) : List Row :=
  matchTable.map rowOfMatch

/- ------------------------------------------------------------------ -/
/- Metrics engine (spec §4.1) — spec-modelled                          -/
/- ------------------------------------------------------------------ -/

/-- Win rate over a list of matches, guarded (spec §4.1). -/
def winRateOf (ms : List MatchRecord) : ℚ :=
  safeRate (ms.filter (fun m => m.won)).length ms.length

/-- Pistol-round win rate over a list of matches, guarded. -/
def pistolWinRateOf (ms : List MatchRecord) : ℚ :=
  safeRate (ms.filter (fun m => m.won_pistol)).length ms.length

/-- Modelled from the spec: trend significance classification (§4.2) —
`HIGH` if |last3 − last10| ≥ 0.25, `MED` if ≥ 0.15, otherwise suppressed.
The rule itself lives in the missing `packages/core/insights/rules.py`. -/
def trendSignificance (l3 l10 : ℚ) : Option Severity :=
  if 1/4 ≤ |l3 - l10| then some Severity.HIGH
  else if 3/20 ≤ |l3 - l10| then some Severity.MED
  else none

/-- Modelled from the spec: direction is `improving` if last3 > last10. -/
def trendDirection (l3 l10 : ℚ) : Direction :=
  if l10 < l3 then Direction.improving else Direction.declining

/-- Percentage change of last3 against last10, guarded. -/
def trendChangePct (l3 l10 : ℚ) : ℚ :=
  safeDivQ ((l3 - l10) * 100) l10

/-- Modelled from the spec: a trend alert for one tracked metric is
emitted only when the significance classifier does not suppress it. -/
def mkTrendAlert (metric : String) (l3 l10 : ℚ) : Option TrendAlert :=
  match trendSignificance l3 l10 with
  | none => none
  | some s =>
      some ⟨metric, l3, l10, trendChangePct l3 l10, trendDirection l3 l10, s⟩

/-- Modelled from the spec: trend deltas compare the most recent 3 matches
against the most recent 10 (or fewer if unavailable) (§4.1); the tracked
metrics are the overall and pistol win rates.  Input is most-recent-first. -/
def computeTrendAlerts (matchTable : List MatchRecord) : List TrendAlert :=
  (mkTrendAlert ("win_rate") (winRateOf (matchTable.take 3))
      (winRateOf (matchTable.take 10))).toList ++
  (mkTrendAlert ("pistol_win_rate") (pistolWinRateOf (matchTable.take 3))
      (pistolWinRateOf (matchTable.take 10))).toList

/-- The matches played on one map. -/
def matchesOnMap (matchTable : List MatchRecord) (name : String) : List MatchRecord :=
  matchTable.filter (fun m => m.map_name == name)

/-- The rounds belonging to a given set of matches. -/
def roundsOfMatches (rounds : List RoundRecord) (ms : List MatchRecord) :
    List RoundRecord :=
  rounds.filter (fun r => ms.any (fun m => m.match_id == r.match_id))

/-- Modelled from the spec: per-map games/wins/losses/win_rate plus average
rounds won and lost per game on that map (§4.1 "Map performance"). -/
def computeMapStatsFor (matchTable : List MatchRecord) (rounds : List RoundRecord)
    (name : String) : MapStats :=
  let ms := matchesOnMap matchTable name
  let games := ms.length
  let wins := (ms.filter (fun m => m.won)).length
  let rs := roundsOfMatches rounds ms
  let rw := (rs.filter (fun r => r.won)).length
  ⟨name, games, wins, games - wins, safeRate wins games,
   safeDivQ (rw : ℚ) (games : ℚ), safeDivQ ((rs.length - rw : Nat) : ℚ) (games : ℚ)⟩

/-- Insert a map-stats entry into a list kept in descending games order.
This embeds the comparator `(a, b) => b.games - a.games` of
`MapPerformance` (`components/report/MapPerformance.tsx`, also
`src/unnamed/part_008` line 16); the assembler sorts with the same order
(spec §4.1 "sorted by games played descending"). -/
def insertByGames (m : MapStats) : List MapStats → List MapStats
  | [] => [m]
  | x :: xs =>
      if x.games ≤ m.games then m :: x :: xs else x :: insertByGames m xs

/-- Sort map stats by games played, descending (stable insertion sort). -/
def sortMapsByGamesDesc : List MapStats → List MapStats
  | [] => []
  | m :: ms => insertByGames m (sortMapsByGamesDesc ms)

/-- Modelled from the spec: the map-performance table, one entry per map
played, sorted by games played descending (§4.1). -/
def computeMapStats (matchTable : List MatchRecord) (rounds : List RoundRecord) :
    List MapStats :=
  sortMapsByGamesDesc
    ((uniqueKeys (matchTable.map (fun m => m.map_name))).map
      (computeMapStatsFor matchTable rounds))

/-- Modelled from the spec: confidence tiers from sample size
(§4.2: "n ≥ 15 → high, n ≥ 7 → medium, else low"). -/
def confidenceTier (n : Nat) : Confidence :=
  if 15 ≤ n then Confidence.high
  else if 7 ≤ n then Confidence.medium
  else Confidence.low

/-- The wire-level spelling of a confidence tier. -/
def confidenceName : Confidence → String
  | Confidence.high => "high"
  | Confidence.medium => "medium"
  | Confidence.low => "low"

/-- Modelled from the spec: map-veto classification (§4.2) — for each map
with n ≥ 3 games, `PICK` if win_rate ≥ 0.55, `BAN` if win_rate ≤ 0.45,
else `NEUTRAL`; maps with n < 3 are `LOW_SAMPLE`.  The rule lives in the
missing `packages/core/insights/rules.py`. -/
def classifyVeto (games wins : Nat) : VetoRec :=
  if games < 3 then VetoRec.LOW_SAMPLE
  else if (55 : ℚ)/100 ≤ (wins : ℚ) / (games : ℚ) then VetoRec.PICK
  else if (wins : ℚ) / (games : ℚ) ≤ (45 : ℚ)/100 then VetoRec.BAN
  else VetoRec.NEUTRAL

/-- Modelled from the spec: the map-veto table carries every aggregated
map with its classification — `LOW_SAMPLE` maps are "still reported"
(§4.2). -/
def computeMapVeto (stats : List MapStats) : List MapVeto :=
  stats.map fun s =>
    ⟨s.map_name, classifyVeto s.games s.wins, safeRate s.wins s.games,
     s.games, s.wins, confidenceName (confidenceTier s.games)⟩

/-- `MapVetoSummary`'s BAN list, from `src/unnamed/part_007` line 134:
`vetos.filter(v => v.recommendation === 'BAN')`. -/
def vetoBans (vetos : List MapVeto) : List MapVeto :=
  vetos.filter fun v => decide (v.recommendation = VetoRec.BAN)

/-- `MapVetoSummary`'s PICK list, from `src/unnamed/part_007` line 135:
`vetos.filter(v => v.recommendation === 'PICK')`. -/
def vetoPicks (vetos : List MapVeto) : List MapVeto :=
  vetos.filter fun v => decide (v.recommendation = VetoRec.PICK)

/-- The rounds played on one side. -/
def sideRounds (rounds : List RoundRecord) (s : Side) : List RoundRecord :=
  rounds.filter fun r => decide (r.side = s)

/-- Modelled from the spec: one side-performance entry; a side with zero
underlying rounds is omitted rather than emitted as zero (§4.1 edge-case
policy). -/
def sideEntry (rounds : List RoundRecord) (s : Side) : List SideStats :=
  let rs := sideRounds rounds s
  if rs.length = 0 then []
  else
    [⟨s, rs.length, (rs.filter (fun r => r.won)).length,
      safeRate (rs.filter (fun r => r.won)).length rs.length⟩]

/-- Modelled from the spec: attack/defense rounds played, won, win rate
(§4.1 "Side performance"). -/
def computeSideStats (rounds : List RoundRecord) : List SideStats :=
  sideEntry rounds Side.attack ++ sideEntry rounds Side.defense

/-- The pistol rounds of the rounds table. -/
def pistolRounds (rounds : List RoundRecord) : List RoundRecord :=
  rounds.filter fun r => decide (r.round_type = RoundType.pistol)

/-- The eco rounds of the rounds table. -/
def ecoRounds (rounds : List RoundRecord) : List RoundRecord :=
  rounds.filter fun r => decide (r.round_type = RoundType.eco)

/-- Modelled from the spec: economy metrics — pistol rounds/wins/win rate
and eco rounds/wins/conversion rate (§4.1).  A bundle with zero underlying
samples is omitted (`none`) rather than emitted as NaN or zero (§4.1
edge-case policy); all rates are guarded against division by zero. -/
def computeEconomyStats (rounds : List RoundRecord) : Option EconomyStats :=
  let ps := pistolRounds rounds
  let es := ecoRounds rounds
  if ps.length + es.length = 0 then none
  else
    some ⟨ps.length, (ps.filter (fun r => r.won)).length,
          safeRate (ps.filter (fun r => r.won)).length ps.length,
          es.length, (es.filter (fun r => r.won)).length,
          safeRate (es.filter (fun r => r.won)).length es.length⟩

/-- The per-match rows of one player. -/
def rowsOfPlayer (players : List PlayerMatchStat) (name : String) :
    List PlayerMatchStat :=
  players.filter fun p => p.player == name

/-- Modelled from the spec: a player's agent pool with per-agent games and
pick rate (§4.1 "Player aggregates"). -/
def agentPoolFor (rows : List PlayerMatchStat) : List AgentStats :=
  (uniqueKeys (rows.map (fun p => p.agent))).map fun a =>
    let g := (rows.filter (fun p => p.agent == a)).length
    ⟨a, g, safeRate g rows.length⟩

/-- Modelled from the spec: the most-played agent is the mode of the agent
column, ties broken by most recent (§4.1); rows arrive most-recent-first
and `uniqueKeys` keeps first occurrences, so keeping the earlier entry on
ties realizes the tie-break. -/
def mostPlayedAgent (rows : List PlayerMatchStat) : String :=
  ((agentPoolFor rows).foldl
    (fun best a => if best.games < a.games then a else best)
    ⟨"", 0, 0⟩).agent_name

/-- Modelled from the spec: per-player aggregates — games, most-played
agent, average ACS/kills/deaths/assists, K/D with deaths = 0 treated as
K/D = kills, first-blood and first-death rates per game (§4.1). -/
def computePlayerStatsFor (players : List PlayerMatchStat) (name : String) :
    PlayerStats :=
  let rows := rowsOfPlayer players name
  let g := rows.length
  let kills := (rows.map (fun p => p.kills)).sum
  let deaths := (rows.map (fun p => p.deaths)).sum
  ⟨name, g, mostPlayedAgent rows, agentPoolFor rows,
   safeDivQ ((rows.map (fun p => p.acs)).sum) (g : ℚ),
   safeRate kills g, safeRate deaths g,
   safeRate ((rows.map (fun p => p.assists)).sum) g,
   if deaths = 0 then (kills : ℚ) else (kills : ℚ) / (deaths : ℚ),
   safeRate ((rows.map (fun p => p.first_kills)).sum) g,
   safeRate ((rows.map (fun p => p.first_deaths)).sum) g⟩

/-- Modelled from the spec: one entry per roster player (§4.1). -/
def computePlayerStats (players : List PlayerMatchStat) : List PlayerStats :=
  (uniqueKeys (players.map (fun p => p.player))).map
    (computePlayerStatsFor players)

/-- Per-match round differential (rounds won minus rounds lost). -/
def roundDiffs (tables : Tables) : List ℚ :=
  tables.matches_df.map fun m =>
    let rs := tables.rounds_df.filter fun r => r.match_id == m.match_id
    ((rs.filter (fun r => r.won)).length : ℚ) -
      ((rs.filter (fun r => !r.won)).length : ℚ)

/-- Arithmetic mean, guarded. -/
def meanQ (l : List ℚ) : ℚ := safeDivQ l.sum (l.length : ℚ)

/-- Mean absolute deviation, guarded. -/
def madQ (l : List ℚ) : ℚ := meanQ (l.map fun d => |d - meanQ l|)

/-- Modelled from the spec: six bounded [0,100] capability scores computed
as normalized, clipped linear transforms against fixed baselines (§4.1;
50% win rate maps to score 50).  The spec's consistency score is the
inverse of the coefficient of variation of the per-match round
differential; the coefficient of variation needs a square root, which has
no exact rational value, so the dispersion is modelled by the mean
absolute deviation (10 differential-points of deviation exhaust the
score), keeping the "inverse of dispersion, clipped" shape. -/
def computeCapabilities (tables : Tables) : TeamCapabilities :=
  let eco := computeEconomyStats tables.rounds_df
  let pw := match eco with
    | none => 0
    | some e => e.pistol_win_rate
  let ec := match eco with
    | none => 0
    | some e => e.eco_conversion_rate
  let fb := safeDivQ ((tables.players_df.map (fun p => p.first_kills)).sum : ℚ)
      (tables.matches_df.length : ℚ)
  let atk := safeRate
      ((sideRounds tables.rounds_df Side.attack).filter (fun r => r.won)).length
      (sideRounds tables.rounds_df Side.attack).length
  let dfn := safeRate
      ((sideRounds tables.rounds_df Side.defense).filter (fun r => r.won)).length
      (sideRounds tables.rounds_df Side.defense).length
  ⟨clamp100 (pw * 100), clamp100 (ec * 100), clamp100 (fb * 20),
   clamp100 (atk * 100), clamp100 (dfn * 100),
   clamp100 (100 - 10 * madQ (roundDiffs tables))⟩

/- ------------------------------------------------------------------ -/
/- Ranking (spec §4.3) — spec-modelled                                 -/
/- ------------------------------------------------------------------ -/

/-- Modelled from the spec: confidence weights 1.0 / 0.7 / 0.4 for
high / medium / low (§4.3). -/
def confidenceWeight : Confidence → ℚ
  | Confidence.high => 1
  | Confidence.medium => 7/10
  | Confidence.low => 2/5

/-- Modelled from the spec: the frequency factor is a "log-normalized
sample-size term (saturating, so very large samples do not dominate
ranking indefinitely)" (§4.3).  Concretely log₂(n + 1)/10, clipped at 1
(saturation from 1023 samples on). -/
def frequencyFactor (n : Nat) : ℚ :=
  min 1 ((Nat.log 2 (n + 1) : ℚ) / 10)

/-- Modelled from the spec: `impact_score = confidence_weight ×
effect_size × frequency_factor` (§4.3), with the effect size clipped to
its contractual 0-1 range. -/
def impactScore (c : Confidence) (effect : ℚ) (n : Nat) : ℚ :=
  confidenceWeight c * clamp01 effect * frequencyFactor n

/-- A rule candidate: the finished insight plus the underlying metric key
used for (category, metric key) deduplication (§4.3). -/
structure Candidate where
  key : String
  insight : KeyInsight
  deriving DecidableEq

/-- Modelled from the spec: threshold tiers — when the final list is below
the minimum count, "the severity/sample-size floors applied in §4.2 are
relaxed by one tier and rules are re-run" (§4.3). -/
inductive Tier
  | normal
  | relaxed
  deriving DecidableEq, Repr

/-- Conditioning-sample floor per tier (§4.2: "minimum conditioning-sample
size (e.g., n ≥ 5)"; relaxed by one). -/
def sampleFloor : Tier → Nat
  | Tier.normal => 5
  | Tier.relaxed => 4

/- ------------------------------------------------------------------ -/
/- Rule engine (spec §4.2) — spec-modelled representative rules        -/
/- ------------------------------------------------------------------ -/

/-- Modelled from the spec: the trend-alert rule category — one candidate
per emitted trend alert, keyed by the metric name. -/
def trendRuleC (matchTable : List MatchRecord) : List Candidate :=
  (computeTrendAlerts matchTable).map fun a =>
    let n := min matchTable.length 10
    let effect := clamp01 (|a.last_3 - a.last_10| * 2)
    ⟨a.metric,
     ⟨"Trend shift: " ++ a.metric, a.significance, confidenceTier n,
      "last3 vs last10 delta on " ++ a.metric,
      "Recent form differs from the 10-match baseline.",
      "Prepare for their recent form, not their season average.",
      none,
      [makeEvidenceRef ("matches") [] (matchRows matchTable)],
      impactScore (confidenceTier n) effect n,
      "trend"⟩⟩

/-- Modelled from the spec: the map-veto rule category — one candidate per
BAN or PICK classification, keyed by the map name. -/
def mapVetoRuleC (matchTable : List MatchRecord) (rounds : List RoundRecord) :
    List Candidate :=
  (computeMapVeto (computeMapStats matchTable rounds)).filterMap fun v =>
    match v.recommendation with
    | VetoRec.BAN =>
        some ⟨v.map_name,
          ⟨"Ban " ++ v.map_name, Severity.HIGH, confidenceTier v.games,
           "weak map: " ++ v.map_name,
           "They win well below half of their games here.",
           "Let them take " ++ v.map_name ++ " onto the board and punish it.",
           some ("Do not ban " ++ v.map_name ++ " for them."),
           [makeEvidenceRef ("matches") [("map", JVal.str v.map_name)]
             (matchRows matchTable)],
           impactScore (confidenceTier v.games)
             (clamp01 ((1/2 - v.win_rate) * 2)) v.games,
           "map_veto"⟩⟩
    | VetoRec.PICK =>
        some ⟨v.map_name,
          ⟨"Deny " ++ v.map_name, Severity.MED, confidenceTier v.games,
           "strong map: " ++ v.map_name,
           "They win well above half of their games here.",
           "Ban " ++ v.map_name ++ " in the veto.",
           none,
           [makeEvidenceRef ("matches") [("map", JVal.str v.map_name)]
             (matchRows matchTable)],
           impactScore (confidenceTier v.games)
             (clamp01 ((v.win_rate - 1/2) * 2)) v.games,
           "map_veto"⟩⟩
    | _ => none

/-- Modelled from the spec: the conditional loss-pattern rule
("loses after losing pistol", §4.2) — requires the tier's minimum
conditioning-sample size and a conditional loss rate of at least 0.70
before emitting. -/
def pistolLossRuleC (tier : Tier) (matchTable : List MatchRecord) :
    List Candidate :=
  let lp := matchTable.filter fun m => !m.won_pistol
  let n := lp.length
  if n < sampleFloor tier then []
  else
    let losses := (lp.filter (fun m => !m.won)).length
    let lossRate := safeRate losses n
    if lossRate < 7/10 then []
    else
      [⟨"pistol_loss",
        ⟨"Pistol Loss Collapse", Severity.HIGH, confidenceTier n,
         "Lose " ++ toString (losses * 100 / n) ++
           "% of matches after losing the first pistol (n=" ++
           toString n ++ ")",
         "They rarely recover once the opening pistol goes against them.",
         "Invest in winning pistol rounds to snowball the half.",
         some ("Do not save after winning the pistol against them."),
         [makeEvidenceRef ("matches") [("won_pistol", JVal.bool false)]
           (matchRows matchTable)],
         impactScore (confidenceTier n) (clamp01 ((lossRate - 1/2) * 2)) n,
         "loss_pattern"⟩⟩]

/-- Modelled from the spec: the rule registry — categories evaluated
independently, outputs merged by concatenation (§4.2, §5). -/
def runRules (tier : Tier) (tables : Tables) : List Candidate :=
  trendRuleC tables.matches_df ++
  mapVetoRuleC tables.matches_df tables.rounds_df ++
  pistolLossRuleC tier tables.matches_df

/-- The best-scored candidate of a group (first wins ties, which realizes
the earlier-registration tie-break of §4.3). -/
def pickBest (c : Candidate) (l : List Candidate) : Candidate :=
  l.foldl
    (fun b d => if b.insight.impact_score < d.insight.impact_score then d else b)
    c

/-- Same (category, metric key) group? (§4.3 deduplication key). -/
def sameGroup (a b : Candidate) : Bool :=
  a.insight.category == b.insight.category && a.key == b.key

/-- Modelled from the spec: deduplication — candidates are grouped by
(category, metric key) and only the highest-impact candidate of a group
survives (§4.3).  Fuel-structured recursion; the initial fuel covers the
whole list. -/
def dedupGo : Nat → List Candidate → List Candidate
  | 0, _ => []
  | _, [] => []
  | fuel + 1, c :: rest =>
      pickBest c (rest.filter (sameGroup c)) ::
        dedupGo fuel (rest.filter fun d => !sameGroup c d)

/-- Deduplicate a candidate list (§4.3). -/
def dedupCandidates (l : List Candidate) : List Candidate :=
  dedupGo l.length l

/-- Rank of a severity for the §4.3 tie-break (`HIGH` > `MED` > `LOW`). -/
def severityRank : Severity → Nat
  | Severity.HIGH => 2
  | Severity.MED => 1
  | Severity.LOW => 0

/-- Does candidate `c` strictly outrank `d`? (§4.3: descending
impact score, ties by severity; remaining ties by registration order,
realized by stable insertion.) -/
def outranks (c d : Candidate) : Bool :=
  decide (d.insight.impact_score < c.insight.impact_score) ||
  (decide (d.insight.impact_score = c.insight.impact_score) &&
    decide (severityRank d.insight.severity < severityRank c.insight.severity))

/-- Insert into a list kept in ranking order (§4.3). -/
def insertRanked (c : Candidate) : List Candidate → List Candidate
  | [] => [c]
  | d :: ds => if outranks c d then c :: d :: ds else d :: insertRanked c ds

/-- Stable ranking sort (§4.3). -/
def sortCandidates : List Candidate → List Candidate
  | [] => []
  | c :: cs => insertRanked c (sortCandidates cs)

/-- Minimum insight count (README: `MIN_INSIGHTS=6`). -/
def minInsights : Nat := 6

/-- Maximum insight count (README: `MAX_INSIGHTS=12`). -/
def maxInsights : Nat := 12

/-- Modelled from the spec: the final insight list — run all rules,
deduplicate, rank, truncate to the maximum count; if below the minimum
count, relax the floors by one tier and re-run (§4.3). -/
def generateInsights (tables : Tables) : List KeyInsight :=
  let strict := sortCandidates (dedupCandidates (runRules Tier.normal tables))
  let final :=
    if strict.length < minInsights then
      sortCandidates (dedupCandidates (runRules Tier.relaxed tables))
    else strict
  (final.take maxInsights).map fun c => c.insight

/- ------------------------------------------------------------------ -/
/- Report assembler (spec §4.4) — spec-modelled                        -/
/- ------------------------------------------------------------------ -/

/-- Date range string of the analyzed matches. -/
def dateRangeOf (matchTable : List MatchRecord) : String :=
  match matchTable.map (fun m => m.date) with
  | [] => ""
  | d :: ds =>
      toString (ds.foldl Nat.min d) ++ " to " ++ toString (ds.foldl Nat.max d)

/-- Modelled from the spec: the report assembler (§4.4) — merges the
metrics bundle, the final insight list and the team summary into the
single output object; derives the two flattened checklists from the
`recommendation` / `what_not_to_do` fields of the ranked insights,
deduplicating identical text.  The clock enters only through
`generated_at` (`now`). -/
def buildReport (team now : String) (tables : Tables) : ScoutingReport :=
  let stats := computeMapStats tables.matches_df tables.rounds_df
  let insights := generateInsights tables
  { generated_at := now
    team_summary := ⟨team, tables.matches_df.length, winRateOf tables.matches_df,
      dateRangeOf tables.matches_df⟩
    trend_alerts := computeTrendAlerts tables.matches_df
    map_veto := computeMapVeto stats
    map_performance := stats
    side_performance := computeSideStats tables.rounds_df
    economy_stats := computeEconomyStats tables.rounds_df
    player_stats := computePlayerStats tables.players_df
    capabilities := computeCapabilities tables
    key_insights := insights
    how_to_beat := uniqueKeys (insights.map fun i => i.recommendation)
    what_not_to_do := uniqueKeys (insights.filterMap fun i => i.what_not_to_do)
    evidence_tables := [("matches", matchRows tables.matches_df)]
    meta := [("matches_found", JVal.num (tables.matches_df.length : ℚ))] }

/-- The empty canonical tables: a team with zero matches. -/
def emptyTables : Tables := ⟨[], [], []⟩

/- ------------------------------------------------------------------ -/
/- Frontend chart simulation, from `components/charts/TrendChart.tsx` -/
/- ------------------------------------------------------------------ -/

/-- A point of the frontend trend chart (`TrendDataPoint`,
`TrendChart.tsx` lines 18-22; the TS field `match` is a Lean keyword and
is rendered `matchNo`). -/
structure TrendDataPoint where
  matchNo : Nat
  winRate : ℚ
  label : String
  deriving DecidableEq, Repr

/-- `generateTrendData` from `components/charts/TrendChart.tsx` lines
165-182, the "simulated match-by-match data" behind the report page's
Win Rate Trend chart (`app/report/[team]/page.tsx` lines 271-277).  The
source draws `Math.random()` once per iteration; the random stream is
made explicit as `rand i ∈ [0,1)` for the i-th iteration:
`variance = (rand i − 0.5) × 0.4`,
`winRate = max(0, min(1, overallWinRate + variance))`. -/
def generateTrendData (matchCount : Nat) (overallWinRate : ℚ)
    (rand : Nat → ℚ) : List TrendDataPoint :=
  (List.range matchCount).map fun i =>
    let variance := (rand i - 1/2) * (2/5)
    let winRate := max 0 (min 1 (overallWinRate + variance))
    ⟨i + 1, winRate, "Match " ++ toString (i + 1)⟩

/-- The progress percentage computed by the `Progress` component
(`components/ui/Progress.tsx` line 27):
`Math.min(100, Math.max(0, (value / max) * 100))`. -/
def progressPercentage (value mx : ℚ) : ℚ :=
  min 100 (max 0 (value / mx * 100))

/- ================================================================== -/
/- Theorems                                                           -/
/- ================================================================== -/

/- Helper lemmas for the veto classifier. -/

theorem classifyVeto_pick_iff (g w : Nat) (hg : 3 ≤ g) :
    classifyVeto g w = VetoRec.PICK ↔ (55 : ℚ)/100 ≤ (w : ℚ) / (g : ℚ) := by
  unfold classifyVeto
  rw [if_neg (by omega)]
  split_ifs with h1 h2
  · exact iff_of_true rfl h1
  · exact iff_of_false (by simp) h1
  · exact iff_of_false (by simp) h1

theorem classifyVeto_ban_iff (g w : Nat) (hg : 3 ≤ g) :
    classifyVeto g w = VetoRec.BAN ↔ (w : ℚ) / (g : ℚ) ≤ (45 : ℚ)/100 := by
  unfold classifyVeto
  rw [if_neg (by omega)]
  split_ifs with h1 h2
  · exact iff_of_false (by simp) (fun hc => by linarith)
  · exact iff_of_true rfl h2
  · exact iff_of_false (by simp) h2

theorem classifyVeto_neutral_iff (g w : Nat) (hg : 3 ≤ g) :
    classifyVeto g w = VetoRec.NEUTRAL ↔
      ((45 : ℚ)/100 < (w : ℚ) / (g : ℚ) ∧ (w : ℚ) / (g : ℚ) < (55 : ℚ)/100) := by
  unfold classifyVeto
  rw [if_neg (by omega)]
  split_ifs with h1 h2
  · exact iff_of_false (by simp) (fun hc => absurd h1 (not_le.mpr hc.2))
  · exact iff_of_false (by simp) (fun hc => absurd hc.1 (not_lt.mpr h2))
  · exact iff_of_true rfl ⟨not_le.mp h2, not_le.mp h1⟩

theorem classifyVeto_lowSample (g w : Nat) (hg : g < 3) :
    classifyVeto g w = VetoRec.LOW_SAMPLE := by
  unfold classifyVeto
  rw [if_pos hg]

/-- C1: every generated report is a single object whose top-level fields
are exactly `generated_at`, `team_summary`, `trend_alerts`, `map_veto`,
`map_performance`, `side_performance`, `economy_stats`, `player_stats`,
`capabilities`, `key_insights`, `how_to_beat`, `what_not_to_do`,
`evidence_tables`, `meta` — the field names (and their order) of the
`ScoutingReport` wire contract coincide with the spec's list. -/
theorem scoutingReport_matches_spec_contract :
    scoutingReportFields = specOutputContractFields ∧
    scoutingReportFields.length = 14 := by
  constructor <;> rfl

/-- C2: map-veto classification — for a map with n ≥ 3 games the
recommendation is `PICK` iff win_rate ≥ 0.55, `BAN` iff win_rate ≤ 0.45
and `NEUTRAL` iff 0.45 < win_rate < 0.55; any map with n < 3 is
`LOW_SAMPLE`; a map played 3 times with 2 wins is `PICK`; `LOW_SAMPLE`
maps are excluded from the PICK/BAN summary lists but every aggregated
map is still reported in the veto table. -/
theorem mapVeto_classification :
    (∀ g w : Nat, 3 ≤ g →
      (classifyVeto g w = VetoRec.PICK ↔ (55 : ℚ)/100 ≤ (w : ℚ) / (g : ℚ))) ∧
    (∀ g w : Nat, 3 ≤ g →
      (classifyVeto g w = VetoRec.BAN ↔ (w : ℚ) / (g : ℚ) ≤ (45 : ℚ)/100)) ∧
    (∀ g w : Nat, 3 ≤ g →
      (classifyVeto g w = VetoRec.NEUTRAL ↔
        ((45 : ℚ)/100 < (w : ℚ) / (g : ℚ) ∧ (w : ℚ) / (g : ℚ) < (55 : ℚ)/100))) ∧
    (∀ g w : Nat, g < 3 → classifyVeto g w = VetoRec.LOW_SAMPLE) ∧
    classifyVeto 3 2 = VetoRec.PICK ∧
    (∀ (vs : List MapVeto) (v : MapVeto), v ∈ vs →
      v.recommendation = VetoRec.LOW_SAMPLE →
        v ∉ vetoBans vs ∧ v ∉ vetoPicks vs) ∧
    (∀ stats : List MapStats, (computeMapVeto stats).length = stats.length) := by
  refine ⟨classifyVeto_pick_iff, classifyVeto_ban_iff, classifyVeto_neutral_iff,
    classifyVeto_lowSample, ?_, ?_, ?_⟩
  · exact (classifyVeto_pick_iff 3 2 (by norm_num)).mpr (by norm_num)
  · intro vs v _ hrec
    constructor
    · intro hmem
      have := List.of_mem_filter hmem
      rw [hrec] at this
      simp at this
    · intro hmem
      have := List.of_mem_filter hmem
      rw [hrec] at this
      simp at this
  · intro stats
    unfold computeMapVeto
    exact List.length_map _ _

/-- Witness for C2: the three-games-two-wins scenario yields `PICK`, a
two-game map yields `LOW_SAMPLE`, and a 2-of-10 map yields `BAN`. -/
theorem mapVeto_classification_witness :
    classifyVeto 3 2 = VetoRec.PICK ∧
    classifyVeto 2 2 = VetoRec.LOW_SAMPLE ∧
    classifyVeto 10 2 = VetoRec.BAN := by
  refine ⟨mapVeto_classification.2.2.2.2.1, ?_, ?_⟩
  · exact mapVeto_classification.2.2.2.1 2 2 (by norm_num)
  · exact (mapVeto_classification.2.1 10 2 (by norm_num)).mpr (by norm_num)

/- Helper lemmas for the trend classifier. -/

theorem trendSignificance_high_iff (l3 l10 : ℚ) :
    trendSignificance l3 l10 = some Severity.HIGH ↔ 1/4 ≤ |l3 - l10| := by
  unfold trendSignificance
  split_ifs with h1 h2
  · exact iff_of_true rfl h1
  · exact iff_of_false (by simp) h1
  · exact iff_of_false (by simp) h1

theorem trendSignificance_med_iff (l3 l10 : ℚ) :
    trendSignificance l3 l10 = some Severity.MED ↔
      (3/20 ≤ |l3 - l10| ∧ |l3 - l10| < 1/4) := by
  unfold trendSignificance
  split_ifs with h1 h2
  · exact iff_of_false (by simp) (fun hc => absurd h1 (not_le.mpr hc.2))
  · exact iff_of_true rfl ⟨h2, not_le.mp h1⟩
  · exact iff_of_false (by simp) (fun hc => absurd hc.1 h2)

theorem trendSignificance_none_iff (l3 l10 : ℚ) :
    trendSignificance l3 l10 = none ↔ |l3 - l10| < 3/20 := by
  unfold trendSignificance
  split_ifs with h1 h2
  · refine iff_of_false (by simp) ?_
    intro hc
    linarith
  · refine iff_of_false (by simp) ?_
    intro hc
    linarith
  · exact iff_of_true rfl (not_le.mp h2)

theorem trendDirection_improving_iff (l3 l10 : ℚ) :
    trendDirection l3 l10 = Direction.improving ↔ l10 < l3 := by
  unfold trendDirection
  split_ifs with h
  · exact iff_of_true rfl h
  · exact iff_of_false (by simp) h

/-- C3: a trend alert carries significance `HIGH` iff
|last3 − last10| ≥ 0.25 and `MED` iff 0.15 ≤ |last3 − last10| < 0.25;
no alert is emitted iff the delta is below 0.15; the direction is
`improving` exactly when last3 > last10; and the last-3 = 1.0 versus
last-10 = 0.5 scenario emits an improving `HIGH` alert. -/
theorem trendAlert_classification :
    (∀ (m : String) (l3 l10 : ℚ) (a : TrendAlert),
      mkTrendAlert m l3 l10 = some a →
        ((a.significance = Severity.HIGH ↔ 1/4 ≤ |l3 - l10|) ∧
         (a.significance = Severity.MED ↔
           (3/20 ≤ |l3 - l10| ∧ |l3 - l10| < 1/4)) ∧
         (a.direction = Direction.improving ↔ l10 < l3))) ∧
    (∀ (m : String) (l3 l10 : ℚ),
      mkTrendAlert m l3 l10 = none ↔ |l3 - l10| < 3/20) ∧
    mkTrendAlert ("win_rate") 1 (1/2) =
      some ⟨"win_rate", 1, 1/2, 100, Direction.improving, Severity.HIGH⟩ := by
  refine ⟨?_, ?_, ?_⟩
  · intro m l3 l10 a h
    unfold mkTrendAlert at h
    cases heq : trendSignificance l3 l10 with
    | none =>
        rw [heq] at h
        cases h
    | some s =>
        rw [heq] at h
        cases h
        refine ⟨?_, ?_, trendDirection_improving_iff l3 l10⟩
        · constructor
          · intro hh
            rw [show s = Severity.HIGH from hh] at heq
            exact (trendSignificance_high_iff l3 l10).mp heq
          · intro hle
            have h2 := (trendSignificance_high_iff l3 l10).mpr hle
            rw [heq] at h2
            exact Option.some.inj h2
        · constructor
          · intro hh
            rw [show s = Severity.MED from hh] at heq
            exact (trendSignificance_med_iff l3 l10).mp heq
          · intro hle
            have h2 := (trendSignificance_med_iff l3 l10).mpr hle
            rw [heq] at h2
            exact Option.some.inj h2
  · intro m l3 l10
    rw [← trendSignificance_none_iff l3 l10]
    unfold mkTrendAlert
    cases heq : trendSignificance l3 l10 with
    | none => simp [heq]
    | some s => simp [heq]
  · have habs : |(1 : ℚ) - 1/2| = 1/2 := by
      rw [show (1 : ℚ) - 1/2 = 1/2 by norm_num]
      exact abs_of_pos (by norm_num)
    unfold mkTrendAlert
    rw [show trendSignificance 1 (1/2) = some Severity.HIGH from
      (trendSignificance_high_iff 1 (1/2)).mpr (by rw [habs]; norm_num)]
    unfold trendDirection trendChangePct safeDivQ
    norm_num

/-- Witness for C3: the scenario alert of the claim, fed back through the
classification theorem, is indeed `improving`. -/
theorem trendAlert_classification_witness :
    (⟨"win_rate", 1, 1/2, 100, Direction.improving, Severity.HIGH⟩
        : TrendAlert).direction = Direction.improving ↔ (1/2 : ℚ) < 1 :=
  (trendAlert_classification.1 ("win_rate") 1 (1/2)
    ⟨"win_rate", 1, 1/2, 100, Direction.improving, Severity.HIGH⟩
    trendAlert_classification.2.2).2.2

/-- C5: every `EvidenceRef` the engine constructs is reproducible —
its `sample_rows` form a sublist (hence a subset) of the rows obtained by
re-applying `filters` to the named table, every sampled row satisfies the
filters, and at most 5 rows are sampled. -/
theorem evidenceRef_reproducible (tbl : String)
    (filters : List (String × JVal)) (t : List Row) :
    (makeEvidenceRef tbl filters t).sample_rows.Sublist
        (applyFilters filters t) ∧
    (makeEvidenceRef tbl filters t).sample_rows.length ≤ 5 ∧
    ((makeEvidenceRef tbl filters t).sample_rows.all
        (rowMatches filters)) = true := by
  refine ⟨List.take_sublist _ _, List.length_take_le _ _, ?_⟩
  rw [List.all_eq_true]
  intro r hr
  have hr2 : r ∈ applyFilters filters t := List.take_subset _ _ hr
  exact List.of_mem_filter hr2

/-- C7: a zero-sample economy bundle is omitted (`none`), never emitted
as zeros; a bundle is emitted only when samples exist; and the rate
helper is guarded — a zero denominator yields 0 and a nonzero denominator
divides normally, so no rate computation divides by zero. -/
theorem economy_zero_sample_policy :
    (∀ rounds : List RoundRecord,
      (pistolRounds rounds).length + (ecoRounds rounds).length = 0 →
        computeEconomyStats rounds = none) ∧
    (∀ rounds : List RoundRecord, ∀ e : EconomyStats,
      computeEconomyStats rounds = some e →
        0 < e.pistol_rounds + e.eco_rounds) ∧
    (∀ w : Nat, safeRate w 0 = 0) ∧
    (∀ w n : Nat, n ≠ 0 → safeRate w n = (w : ℚ) / (n : ℚ)) := by
  refine ⟨?_, ?_, ?_, ?_⟩
  · intro rounds h
    unfold computeEconomyStats
    rw [if_pos h]
  · intro rounds e h
    unfold computeEconomyStats at h
    simp only [] at h
    split_ifs at h with h0
    cases h
    show 0 < (pistolRounds rounds).length + (ecoRounds rounds).length
    omega
  · intro w
    unfold safeRate
    rw [if_pos rfl]
  · intro w n hn
    unfold safeRate
    rw [if_neg hn]

/-- Witness for C7: the empty rounds table yields an absent economy
bundle, and the guards act as stated on 3/0 and 3/4. -/
theorem economy_zero_sample_policy_witness :
    computeEconomyStats [] = none ∧ safeRate 3 0 = 0 ∧
    safeRate 3 4 = ((3 : Nat) : ℚ) / ((4 : Nat) : ℚ) := by
  refine ⟨economy_zero_sample_policy.1 [] (by rfl),
    economy_zero_sample_policy.2.2.1 3,
    economy_zero_sample_policy.2.2.2 3 4 (by norm_num)⟩

/- Helper lemmas for the zero-match boundary. -/

theorem computeTrendAlerts_nil : computeTrendAlerts [] = [] := by
  have h0 : winRateOf [] = 0 := by simp [winRateOf, safeRate]
  have h1 : pistolWinRateOf [] = 0 := by simp [pistolWinRateOf, safeRate]
  have hnone : ∀ m : String, mkTrendAlert m 0 0 = none := by
    intro m
    unfold mkTrendAlert
    rw [(trendSignificance_none_iff 0 0).mpr (by norm_num)]
  unfold computeTrendAlerts
  rw [List.take_nil, List.take_nil, h0, h1, hnone, hnone]
  rfl

theorem runRules_empty (tier : Tier) : runRules tier emptyTables = [] := by
  have h1 : trendRuleC [] = [] := by
    unfold trendRuleC
    rw [computeTrendAlerts_nil]
    rfl
  have h3 : pistolLossRuleC tier [] = [] := by
    cases tier <;> rfl
  show trendRuleC [] ++ mapVetoRuleC [] [] ++ pistolLossRuleC tier [] = []
  rw [h1, h3]
  rfl

theorem generateInsights_empty : generateInsights emptyTables = [] := by
  simp only [generateInsights, runRules_empty]
  rfl

/-- C8: a team with zero matches still yields a report — all metric
collections are empty, the economy bundle is absent and no insight is
emitted, rather than raising an error (report construction is total). -/
theorem emptyTeam_report_is_empty (team now : String) :
    (buildReport team now emptyTables).team_summary.matches_analyzed = 0 ∧
    (buildReport team now emptyTables).trend_alerts = [] ∧
    (buildReport team now emptyTables).map_veto = [] ∧
    (buildReport team now emptyTables).map_performance = [] ∧
    (buildReport team now emptyTables).side_performance = [] ∧
    (buildReport team now emptyTables).economy_stats = none ∧
    (buildReport team now emptyTables).player_stats = [] ∧
    (buildReport team now emptyTables).key_insights = [] ∧
    (buildReport team now emptyTables).how_to_beat = [] ∧
    (buildReport team now emptyTables).what_not_to_do = [] := by
  refine ⟨rfl, ?_, rfl, rfl, rfl, rfl, rfl, ?_, ?_, ?_⟩
  · show computeTrendAlerts [] = []
    exact computeTrendAlerts_nil
  · show generateInsights emptyTables = []
    exact generateInsights_empty
  · show uniqueKeys ((generateInsights emptyTables).map
        fun i => i.recommendation) = []
    rw [generateInsights_empty]
    rfl
  · show uniqueKeys ((generateInsights emptyTables).filterMap
        fun i => i.what_not_to_do) = []
    rw [generateInsights_empty]
    rfl

/-- C6 (amended): the core report object is a pure function of the input
tables — two invocations with the same tables agree on every field except
`generated_at`, which is exactly the supplied clock value. -/
theorem buildReport_clock_independent (team now₁ now₂ : String)
    (tables : Tables) :
    (buildReport team now₁ tables).generated_at = now₁ ∧
    (buildReport team now₁ tables).team_summary =
      (buildReport team now₂ tables).team_summary ∧
    (buildReport team now₁ tables).trend_alerts =
      (buildReport team now₂ tables).trend_alerts ∧
    (buildReport team now₁ tables).map_veto =
      (buildReport team now₂ tables).map_veto ∧
    (buildReport team now₁ tables).map_performance =
      (buildReport team now₂ tables).map_performance ∧
    (buildReport team now₁ tables).side_performance =
      (buildReport team now₂ tables).side_performance ∧
    (buildReport team now₁ tables).economy_stats =
      (buildReport team now₂ tables).economy_stats ∧
    (buildReport team now₁ tables).player_stats =
      (buildReport team now₂ tables).player_stats ∧
    (buildReport team now₁ tables).capabilities =
      (buildReport team now₂ tables).capabilities ∧
    (buildReport team now₁ tables).key_insights =
      (buildReport team now₂ tables).key_insights ∧
    (buildReport team now₁ tables).how_to_beat =
      (buildReport team now₂ tables).how_to_beat ∧
    (buildReport team now₁ tables).what_not_to_do =
      (buildReport team now₂ tables).what_not_to_do ∧
    (buildReport team now₁ tables).evidence_tables =
      (buildReport team now₂ tables).evidence_tables ∧
    (buildReport team now₁ tables).meta =
      (buildReport team now₂ tables).meta :=
  ⟨rfl, rfl, rfl, rfl, rfl, rfl, rfl, rfl, rfl, rfl, rfl, rfl, rfl, rfl⟩

/-- Counterexample for C6 as stated: the report page's Win Rate Trend
chart is produced by `generateTrendData`, which draws on `Math.random()`
— with the random stream explicit, two invocations over identical report
inputs (1 match analyzed, overall win rate 0.5) but different random
draws yield different chart data, so the cited generation code is not
free of randomness. -/
theorem generateTrendData_random_dependence :
    generateTrendData 1 (1/2) (fun _ => 0) ≠
      generateTrendData 1 (1/2) (fun _ => 1/2) := by
  intro h
  have h1 := congrArg (fun l => (l.map fun p => p.winRate).sum) h
  simp only [generateTrendData, List.range_succ, List.range_zero,
    List.nil_append, List.map_cons, List.map_nil, List.map_map] at h1
  norm_num at h1

/- Helper lemmas for the impact-score bound. -/

theorem impactScore_mem_unit (c : Confidence) (e : ℚ) (n : Nat) :
    0 ≤ impactScore c e n ∧ impactScore c e n ≤ 1 := by
  have hw0 : 0 ≤ confidenceWeight c := by
    cases c <;> norm_num [confidenceWeight]
  have hw1 : confidenceWeight c ≤ 1 := by
    cases c <;> norm_num [confidenceWeight]
  have he0 : 0 ≤ clamp01 e := le_min (by norm_num) (le_max_left 0 e)
  have he1 : clamp01 e ≤ 1 := min_le_left _ _
  have hf0 : 0 ≤ frequencyFactor n := by
    refine le_min (by norm_num) ?_
    positivity
  have hf1 : frequencyFactor n ≤ 1 := min_le_left _ _
  constructor
  · exact mul_nonneg (mul_nonneg hw0 he0) hf0
  · exact mul_le_one₀ (mul_le_one₀ hw1 he0 he1) hf0 hf1

theorem pickBest_mem (c : Candidate) (l : List Candidate) :
    pickBest c l ∈ c :: l := by
  induction l generalizing c with
  | nil => simp [pickBest]
  | cons d ds ih =>
      have hstep : pickBest c (d :: ds) =
          pickBest
            (if c.insight.impact_score < d.insight.impact_score then d else c)
            ds := rfl
      rw [hstep]
      rcases List.mem_cons.mp
          (ih (if c.insight.impact_score < d.insight.impact_score
            then d else c)) with heq | hmem
      · rw [heq]
        split_ifs
        · exact List.mem_cons_of_mem _ (List.mem_cons_self _ _)
        · exact List.mem_cons_self _ _
      · exact List.mem_cons_of_mem _ (List.mem_cons_of_mem _ hmem)

theorem mem_of_mem_dedupGo (fuel : Nat) (l : List Candidate) (c : Candidate)
    (h : c ∈ dedupGo fuel l) : c ∈ l := by
  induction fuel generalizing l with
  | zero => simp [dedupGo] at h
  | succ fuel ih =>
      cases l with
      | nil => simp [dedupGo] at h
      | cons d rest =>
          rw [dedupGo] at h
          rcases List.mem_cons.mp h with rfl | h2
          · rcases List.mem_cons.mp
                (pickBest_mem d (rest.filter (sameGroup d))) with heq | hmem
            · rw [heq]
              exact List.mem_cons_self _ _
            · exact List.mem_cons_of_mem _ (List.mem_of_mem_filter hmem)
          · exact List.mem_cons_of_mem _ (List.mem_of_mem_filter (ih _ h2))

theorem mem_insertRanked (x c : Candidate) (l : List Candidate) :
    x ∈ insertRanked c l ↔ x = c ∨ x ∈ l := by
  induction l with
  | nil => simp [insertRanked]
  | cons d ds ih =>
      rw [insertRanked]
      split_ifs with h
      · exact List.mem_cons
      · rw [List.mem_cons, ih, List.mem_cons]
        tauto

theorem mem_of_mem_sortCandidates (x : Candidate) (l : List Candidate)
    (h : x ∈ sortCandidates l) : x ∈ l := by
  induction l with
  | nil => simp [sortCandidates] at h
  | cons c cs ih =>
      rw [sortCandidates] at h
      rcases (mem_insertRanked x c (sortCandidates cs)).mp h with rfl | h2
      · exact List.mem_cons_self _ _
      · exact List.mem_cons_of_mem _ (ih h2)

theorem candidate_impact_in_unit (tier : Tier) (tables : Tables)
    (c : Candidate) (h : c ∈ runRules tier tables) :
    0 ≤ c.insight.impact_score ∧ c.insight.impact_score ≤ 1 := by
  unfold runRules at h
  rcases List.mem_append.mp h with h | h
  · rcases List.mem_append.mp h with h | h
    · unfold trendRuleC at h
      rcases List.mem_map.mp h with ⟨a, _, rfl⟩
      exact impactScore_mem_unit _ _ _
    · unfold mapVetoRuleC at h
      rcases List.mem_filterMap.mp h with ⟨v, _, hfv⟩
      cases hrec : v.recommendation <;> rw [hrec] at hfv
      · cases hfv
        exact impactScore_mem_unit _ _ _
      · cases hfv
        exact impactScore_mem_unit _ _ _
      · cases hfv
      · cases hfv
  · simp only [pistolLossRuleC] at h
    split_ifs at h with h1 h2
    · simp at h
    · simp at h
    · rcases List.mem_singleton.mp h with rfl
      exact impactScore_mem_unit _ _ _

theorem insight_impact_in_unit (tables : Tables) (i : KeyInsight)
    (h : i ∈ generateInsights tables) :
    0 ≤ i.impact_score ∧ i.impact_score ≤ 1 := by
  unfold generateInsights at h
  simp only [] at h
  rcases List.mem_map.mp h with ⟨c, hc, rfl⟩
  have hc2 := List.take_subset _ _ hc
  split_ifs at hc2 with hlen
  · exact candidate_impact_in_unit Tier.relaxed tables c
      (mem_of_mem_dedupGo _ _ _ (mem_of_mem_sortCandidates _ _ hc2))
  · exact candidate_impact_in_unit Tier.normal tables c
      (mem_of_mem_dedupGo _ _ _ (mem_of_mem_sortCandidates _ _ hc2))

/-- C4: every insight emitted in the report's `key_insights` list carries
an `impact_score` inside the closed interval [0,1], for all inputs. -/
theorem keyInsights_impact_scores_in_unit (team now : String)
    (tables : Tables) :
    ((buildReport team now tables).key_insights.all
      fun i => decide (0 ≤ i.impact_score ∧ i.impact_score ≤ 1)) = true := by
  rw [List.all_eq_true]
  intro i hi
  rw [decide_eq_true_eq]
  exact insight_impact_in_unit tables i hi

/- Helper lemmas for the games-descending sort. -/

theorem mem_insertByGames (y m : MapStats) (l : List MapStats) :
    y ∈ insertByGames m l ↔ y = m ∨ y ∈ l := by
  induction l with
  | nil => simp [insertByGames]
  | cons x xs ih =>
      rw [insertByGames]
      split_ifs with h
      · exact List.mem_cons
      · rw [List.mem_cons, ih, List.mem_cons]
        tauto

theorem pairwise_insertByGames (m : MapStats) (l : List MapStats)
    (h : l.Pairwise fun a b => b.games ≤ a.games) :
    (insertByGames m l).Pairwise fun a b => b.games ≤ a.games := by
  induction l with
  | nil => simp [insertByGames]
  | cons x xs ih =>
      rw [insertByGames]
      split_ifs with hx
      · refine List.Pairwise.cons ?_ h
        intro y hy
        rcases List.mem_cons.mp hy with rfl | hy2
        · exact hx
        · exact le_trans (List.rel_of_pairwise_cons h hy2) hx
      · refine List.Pairwise.cons ?_ (ih (List.Pairwise.of_cons h))
        intro y hy
        rcases (mem_insertByGames y m xs).mp hy with rfl | hy2
        · exact Nat.le_of_lt (Nat.lt_of_not_le hx)
        · exact List.rel_of_pairwise_cons h hy2

theorem perm_insertByGames (m : MapStats) (l : List MapStats) :
    (insertByGames m l).Perm (m :: l) := by
  induction l with
  | nil => simp [insertByGames]
  | cons x xs ih =>
      rw [insertByGames]
      split_ifs with h
      · exact List.Perm.refl _
      · exact List.Perm.trans (List.Perm.cons x ih) (List.Perm.swap m x xs)

/-- C9: the map-performance list is ordered by games played descending —
the sort used by the `MapPerformance` component (and by the assembler's
map table) yields a list in which every later entry has at most as many
games as any earlier one, and which is a permutation of its input. -/
theorem mapPerformance_sorted_by_games (maps : List MapStats) :
    ((sortMapsByGamesDesc maps).Pairwise fun a b => b.games ≤ a.games) ∧
    (sortMapsByGamesDesc maps).Perm maps := by
  induction maps with
  | nil => exact ⟨List.Pairwise.nil, List.Perm.refl _⟩
  | cons m ms ih =>
      rw [sortMapsByGamesDesc]
      refine ⟨pairwise_insertByGames m _ ih.1, ?_⟩
      exact List.Perm.trans (perm_insertByGames m _) (List.Perm.cons m ih.2)

/-- C10: for `max > 0` the `Progress` bar width equals
`min(100, max(0, (value / max) * 100))` and always lies in `[0, 100]`,
even for negative `value` or `value > max`. -/
theorem progressPercentage_clamped (value mx : ℚ) (hmx : 0 < mx) :
    progressPercentage value mx = min 100 (max 0 (value / mx * 100)) ∧
    0 ≤ progressPercentage value mx ∧ progressPercentage value mx ≤ 100 := by
  refine ⟨rfl, ?_, ?_⟩
  · unfold progressPercentage
    rcases le_total 100 (max 0 (value / mx * 100)) with h | h
    · rw [min_eq_left h]
      norm_num
    · rw [min_eq_right h]
      exact le_max_left 0 _
  · unfold progressPercentage
    exact min_le_left _ _

/-- Witness for C10: a value exceeding `max` (150 against 100) still
stays inside [0,100]. -/
theorem progressPercentage_clamped_witness :
    progressPercentage 150 100 = min 100 (max 0 (150 / 100 * 100)) ∧
    0 ≤ progressPercentage 150 100 ∧ progressPercentage 150 100 ≤ 100 :=
  progressPercentage_clamped 150 100 (by norm_num)

end Voracle
